import Mathlib

/-
Shallow embedding of `generateCompilationLog` from `src/lib/utils/helpers.js`
(the brunch build-log summarizer), together with theorems settling the
frozen claims about it.

Conventions of the embedding:
* JS objects `{path, compilationTime}` become structures with the same fields;
  timestamps are `Int` (millisecond instants).
* The mutable accumulators of the source (`isChanged`, `locallyCompiledCount`,
  `compiled`, `generated`, `cachedCount`) become explicit fold state.
* `Array.prototype.includes` on the disposed generated files becomes
  `List.contains` (structural equality standing for the reference equality of
  the source; the spec's design notes ask for exactly this identification).
* `Date.now()` becomes an explicit `now : Int` argument; the source reads the
  clock once, at line 162, after the main text is fully determined.
-/

/-- One tracked input file: `{ path, compilationTime }`. -/
structure SourceFile where
  path : String
  compilationTime : Int
deriving DecidableEq

/-- One output bundle and the ordered sources feeding it:
`{ path, sourceFiles }`. -/
structure GeneratedFile where
  path : String
  sourceFiles : List SourceFile
deriving DecidableEq

/-- `disposedFiles`: generated files and source paths removed this pass. -/
structure DisposedFiles where
  generated : List GeneratedFile
  sourcePaths : List String
deriving DecidableEq

/-- A copied static asset (`copiedAssets` entries): only its path is used. -/
structure Asset where
  path : String
deriving DecidableEq

/-- Modelled from the spec: `basename` of `universal-path` (a dependency, not
part of src/) extracts the final path segment, i.e. everything after the last
path separator (`/` or `\x5c`). -/
def basename (p : String) : String :=
  String.mk (((p.data.reverse).takeWhile fun c => c != '/' && c != '\\').reverse)

/-- The source's lines 105-107: push a name onto `compiled` unless it is
already present. -/
def pushNew (acc : List String) (n : String) : List String :=
  if acc.contains n then acc else acc ++ [n]

/-- Bool form of the source's line 101 test
`sourceFile.compilationTime >= startTime` ("changed this pass"). -/
def chP (startTime : Int) (sf : SourceFile) : Bool :=
  decide (sf.compilationTime ≥ startTime)

/-- Body of the inner `forEach` (source lines 100-110) over one
`sourceFile`, acting on the state `(isChanged, locallyCompiledCount,
compiled)`. -/
def stepSource (startTime : Int) (dgen : List GeneratedFile)
    (generatedFile : GeneratedFile) (acc : Bool × Nat × List String)
    (sourceFile : SourceFile) : Bool × Nat × List String :=
  let acc :=
    if sourceFile.compilationTime ≥ startTime then
      let sourceName := basename sourceFile.path
      (true, acc.2.1 + 1,
        if acc.2.2.contains sourceName then acc.2.2 else acc.2.2 ++ [sourceName])
    else acc
  if !acc.1 && dgen.contains generatedFile then (true, acc.2.1, acc.2.2) else acc

/-- Body of the outer `forEach` (source lines 96-115) over one
`generatedFile`, acting on the state `(generated, compiled, cachedCount)`. -/
def stepGenerated (startTime : Int) (dgen : List GeneratedFile)
    (acc : List String × List String × Nat) (generatedFile : GeneratedFile) :
    List String × List String × Nat :=
  let len := generatedFile.sourceFiles.length
  let s := generatedFile.sourceFiles.foldl
    (stepSource startTime dgen generatedFile) (false, 0, acc.2.1)
  if s.1 then
    (acc.1 ++ [basename generatedFile.path], s.2.2, acc.2.2 + (len - s.2.1))
  else
    (acc.1, s.2.2, acc.2.2)

/-- The whole name-collection loop of source lines 92-115: from `startTime`,
`disposedFiles.generated` and `generatedFiles`, compute the triple
`(generated, compiled, cachedCount)`. -/
def computeLog (startTime : Int) (dgen : List GeneratedFile)
    (generatedFiles : List GeneratedFile) : List String × List String × Nat :=
  generatedFiles.foldl (stepGenerated startTime dgen) ([], [], 0)

/-- `generatedLog` closure, source lines 117-123. -/
def generatedLog (generated : List String) : String :=
  match generated with
  | [] => ""
  | [name] => " into " ++ name
  | _ => " into " ++ toString generated.length ++ " files"

/-- `compiledLog` closure, source lines 124-136. -/
def compiledLog (compiled disposed : List String) : String :=
  match compiled with
  | [] =>
    match disposed with
    | [] => ""
    | [name] => "removed " ++ name
    | _ => "removed " ++ toString disposed.length
  | [name] => "compiled " ++ name
  | _ => "compiled " ++ toString compiled.length

/-- `cachedLog` closure, source lines 137-149. -/
def cachedLog (cachedCount : Nat) (compiled generated : List String) : String :=
  if cachedCount = 0 then
    if compiled.length ≤ 1 then "" else " files"
  else
    match compiled with
    | [] =>
      let noun := if generated.length > 1 then "" else " files"
      " and wrote " ++ toString cachedCount ++ " cached" ++ noun
    | [_] =>
      let cachedCountName := "file" ++ (if cachedCount = 1 then "" else "s")
      " and " ++ toString cachedCount ++ " cached " ++ cachedCountName
    | _ => " files and " ++ toString cachedCount ++ " cached"

/-- `assetsLog` closure, source lines 152-160 (`copied` holds the basenames
of the copied assets). -/
def assetsLog (copied compiled : List String) : String :=
  match copied with
  | [] => ""
  | [name] => "copied " ++ name
  | _ =>
    if compiled.length ≠ 0 then "copied " ++ toString copied.length
    else "copied " ++ toString copied.length ++ " files"

/-- Everything the source computes before it reads the clock: the `main`
string of line 161, a function of the four input collections alone. -/
def mainText (startTime : Int) (copiedAssets : List Asset)
    (generatedFiles : List GeneratedFile) (disposedFiles : DisposedFiles) :
    String :=
  let copied := copiedAssets.map fun file => basename file.path
  let s := computeLog startTime disposedFiles.generated generatedFiles
  let generated := s.1
  let compiled := s.2.1
  let cachedCount := s.2.2
  let disposed := disposedFiles.sourcePaths
  let nonAssetsLog :=
    compiledLog compiled disposed ++ cachedLog cachedCount compiled generated ++
      generatedLog generated
  let sep := if nonAssetsLog ≠ "" ∧ copied.length ≠ 0 then ", " else ""
  nonAssetsLog ++ sep ++ assetsLog copied compiled

/-- Models `(diff / 1000).toFixed(1)` of source line 165 for an integer
millisecond `diff`: round to the nearest tenth of a second, halves up (the
branch is reached only for `diff > 1000`, so the operands are positive; the
imprecision of binary floats under `toFixed` is not modelled — no claim
depends on the rounding, only on the rendered shape). -/
def secondsText (diff : Int) : String :=
  let tenths := (diff + 50) / 100
  toString (tenths / 10) ++ "." ++ toString (tenths % 10)

/-- Duration text of source lines 162-166: seconds with one decimal when
`diff > 1000`, otherwise integer milliseconds. -/
def diffText (diff : Int) : String :=
  if diff > 1000 then secondsText diff ++ " sec" else toString diff ++ " ms"

/-- `generateCompilationLog`, source lines 89-168, with `Date.now()` passed
in as `now`. -/
def generateCompilationLog (now startTime : Int) (copiedAssets : List Asset)
    (generatedFiles : List GeneratedFile) (disposedFiles : DisposedFiles) :
    String :=
  let main := mainText startTime copiedAssets generatedFiles disposedFiles
  let diff := now - startTime
  (if main = "" then "compiled" else main) ++ " in " ++ diffText diff

/-- Names (with multiplicity) of the changed sources, in traversal order
across all generated files. -/
def changedNames (startTime : Int) (generatedFiles : List GeneratedFile) :
    List String :=
  (generatedFiles.map fun gf =>
    (gf.sourceFiles.filter (chP startTime)).map fun sf => basename sf.path).flatten

/-- First-occurrence de-duplication, the repeated application of
`pushNew` starting from the empty list. -/
def dedupFirst (l : List String) : List String :=
  l.foldl pushNew []

/-- Unfolding of `generateCompilationLog`: the text before the duration is
`mainText`, a function of the four input collections alone (the clock is only
read for the suffix). -/
theorem generateCompilationLog_eq (now startTime : Int)
    (copiedAssets : List Asset) (generatedFiles : List GeneratedFile)
    (disposedFiles : DisposedFiles) :
    generateCompilationLog now startTime copiedAssets generatedFiles
        disposedFiles =
      (if mainText startTime copiedAssets generatedFiles disposedFiles = ""
        then "compiled"
        else mainText startTime copiedAssets generatedFiles disposedFiles) ++
        " in " ++ diffText (now - startTime) := rfl

/-- C6: if all four input collections are empty, the result is exactly
`"compiled in <duration>"`. -/
theorem generateCompilationLog_empty_inputs (now startTime : Int) :
    generateCompilationLog now startTime [] [] ⟨[], []⟩ =
      "compiled in " ++ diffText (now - startTime) := rfl

/-- C9: two calls on identical inputs and the same `startTime` but different
call times agree on everything before the duration suffix: both results are
the same `m` followed by `" in "` and their own duration text. -/
theorem mainText_independent_of_now (startTime : Int)
    (copiedAssets : List Asset) (generatedFiles : List GeneratedFile)
    (disposedFiles : DisposedFiles) (now1 now2 : Int) :
    ∃ m : String,
      generateCompilationLog now1 startTime copiedAssets generatedFiles
          disposedFiles = m ++ " in " ++ diffText (now1 - startTime) ∧
      generateCompilationLog now2 startTime copiedAssets generatedFiles
          disposedFiles = m ++ " in " ++ diffText (now2 - startTime) :=
  ⟨_, rfl, rfl⟩

/-- C10: a generated file with an empty `sourceFiles` list never changes the
state — no generated name, no cached-count contribution — because the
disposed-membership check only runs inside the iteration over its source
files (here `dgen` is arbitrary, so in particular the file may be a member of
`disposedFiles.generated`). -/
theorem stepGenerated_empty_sources (startTime : Int)
    (dgen : List GeneratedFile) (g c : List String) (n : Nat)
    (gf : GeneratedFile) (h : gf.sourceFiles = []) :
    stepGenerated startTime dgen (g, c, n) gf = (g, c, n) := by
  simp [stepGenerated, h]

/-- Witness for C10: the concrete empty-sources bundle, itself listed among
the disposed generated files, leaves the state untouched. -/
theorem stepGenerated_empty_sources_witness :
    stepGenerated 0 [(⟨"public/app.js", []⟩ : GeneratedFile)] ([], [], 0)
      ⟨"public/app.js", []⟩ = ([], [], 0) :=
  stepGenerated_empty_sources 0 [⟨"public/app.js", []⟩] [] [] 0
    ⟨"public/app.js", []⟩ rfl

/-- C1 (amended): when the cached count is 0, the cached clause is empty for
compiled-name count at most 1, and is the bare `" files"` suffix for
compiled-name count at least 2 — the opposite pairing of the one the claim
states. -/
theorem cachedLog_zero_cachedCount (compiled generated : List String) :
    (compiled.length ≤ 1 → cachedLog 0 compiled generated = "") ∧
    (2 ≤ compiled.length → cachedLog 0 compiled generated = " files") := by
  constructor
  · intro h
    simp [cachedLog, h]
  · intro h
    have h1 : ¬compiled.length ≤ 1 := by omega
    simp [cachedLog, h1]

/-- Witness for C1 (amended) at compiled-name counts 1 and 2. -/
theorem cachedLog_zero_cachedCount_witness :
    cachedLog 0 ["a.js"] ["app.js"] = "" ∧
    cachedLog 0 ["a.js", "b.js"] ["app.js"] = " files" :=
  ⟨(cachedLog_zero_cachedCount ["a.js"] ["app.js"]).1 (by decide),
   (cachedLog_zero_cachedCount ["a.js", "b.js"] ["app.js"]).2 (by decide)⟩

/-- Counterexample to C1 as stated: a pass whose one bundle has two changed
sources reaches the cached clause with cached count 0 and compiled-name
count 2, where the clause is `" files"`, not the empty string the claim
predicts (and with one compiled name it is empty, not `" files"`). -/
theorem cachedLog_zero_claim_counterexample :
    computeLog 0 [] [⟨"public/app.js", [⟨"a.js", 5⟩, ⟨"b.js", 7⟩]⟩] =
      (["app.js"], ["a.js", "b.js"], 0) ∧
    cachedLog 0 ["a.js", "b.js"] ["app.js"] = " files" ∧
    cachedLog 0 ["a.js", "b.js"] ["app.js"] ≠ "" ∧
    cachedLog 0 ["a.js"] ["app.js"] = "" ∧
    cachedLog 0 ["a.js"] ["app.js"] ≠ " files" := by decide

/-- C3 (amended): when the elapsed time is exactly 1000 milliseconds the
duration renders in milliseconds form, `"1000 ms"` — the seconds form is
reserved for elapsed strictly greater than 1000. -/
theorem duration_exact_boundary_ms (now startTime : Int)
    (copiedAssets : List Asset) (generatedFiles : List GeneratedFile)
    (disposedFiles : DisposedFiles) (h : now - startTime = 1000) :
    ∃ m : String,
      generateCompilationLog now startTime copiedAssets generatedFiles
        disposedFiles = m ++ " in 1000 ms" := by
  refine ⟨if mainText startTime copiedAssets generatedFiles disposedFiles = ""
    then "compiled"
    else mainText startTime copiedAssets generatedFiles disposedFiles, ?_⟩
  rw [generateCompilationLog_eq, h, String.append_assoc]
  rfl

/-- Witness for C3 (amended) at `now = 1000`, `startTime = 0`. -/
theorem duration_exact_boundary_ms_witness :
    ∃ m : String,
      generateCompilationLog 1000 0 [] [] ⟨[], []⟩ = m ++ " in 1000 ms" :=
  duration_exact_boundary_ms 1000 0 [] [] ⟨[], []⟩ rfl

/-- Counterexample to C3 as stated: at an elapsed time of exactly 1000
milliseconds the result ends in `" in 1000 ms"`, not the `"1.0 sec"` form
the claim predicts. -/
theorem duration_boundary_counterexample :
    generateCompilationLog 1000 0 [] [] ⟨[], []⟩ = "compiled in 1000 ms" ∧
    "compiled in 1000 ms" ≠ "compiled in 1.0 sec" := by decide

/-- C4 (amended): with exactly one compiled name the cached clause reads
`" and N cached file(s)"` where the singular/plural of `file` follows the
cached count itself — singular exactly when the cached count is 1. -/
theorem cachedLog_single_compiled_plural (n : Nat) (name : String)
    (generated : List String) (h : n ≠ 0) :
    (n = 1 → cachedLog n [name] generated = " and 1 cached file") ∧
    (n ≠ 1 → cachedLog n [name] generated =
      " and " ++ toString n ++ " cached files") := by
  constructor
  · intro h1
    subst h1
    rfl
  · intro h1
    have step : cachedLog n [name] generated =
        " and " ++ toString n ++ " cached " ++ ("file" ++ "s") := by
      simp [cachedLog, h, h1]
    rw [step, String.append_assoc]
    rfl

/-- Witness for C4 (amended): 99 cached sources behind one compiled name
render as `" and 99 cached files"`. -/
theorem cachedLog_single_compiled_plural_witness :
    cachedLog 99 ["a.coffee"] ["app.js"] = " and 99 cached files" :=
  (cachedLog_single_compiled_plural 99 "a.coffee" ["app.js"] (by decide)).2
    (by decide)

set_option maxRecDepth 8192 in
/-- Counterexample to C4 as stated: the claim's own input (one generated
file, 1 changed source, 99 unchanged) yields the plural clause
`"99 cached files"`, and at a fixed compiled-name count of 1 the word
changes between `file` and `files` with the cached count — so the choice
depends on the cached count, not only on the compiled-name count. -/
theorem cached_plural_counterexample :
    generateCompilationLog 10 0 []
      [⟨"public/app.js",
        ⟨"a.coffee", 5⟩ :: List.replicate 99 ⟨"unchanged.coffee", -1⟩⟩]
      ⟨[], []⟩ =
      "compiled a.coffee and 99 cached files into app.js in 10 ms" ∧
    cachedLog 99 ["a.coffee"] ["app.js"] ≠ " and 99 cached file" ∧
    cachedLog 1 ["a.coffee"] ["app.js"] = " and 1 cached file" := by decide

/-- C8: the assets clause is empty for no copied assets, `"copied <name>"`
for exactly one, and for two or more `"copied N"` when any compilation
happened (compiled-name count positive) else `"copied N files"`. -/
theorem assetsLog_cases (copied compiled : List String) :
    (copied.length = 0 → assetsLog copied compiled = "") ∧
    (∀ name, copied = [name] →
      assetsLog copied compiled = "copied " ++ name) ∧
    (2 ≤ copied.length →
      (0 < compiled.length →
        assetsLog copied compiled = "copied " ++ toString copied.length) ∧
      (compiled.length = 0 →
        assetsLog copied compiled =
          "copied " ++ toString copied.length ++ " files")) := by
  refine ⟨?_, ?_, ?_⟩
  · intro h
    have h0 : copied = [] := List.length_eq_zero.mp h
    subst h0
    rfl
  · intro name h
    subst h
    rfl
  · intro h
    cases copied with
    | nil => simp at h
    | cons x t =>
      cases t with
      | nil => simp at h
      | cons y rest =>
        constructor
        · intro hc
          have hne : compiled.length ≠ 0 := by omega
          simp [assetsLog, hne]
        · intro hc
          simp [assetsLog, hc]

/-- Witness for C8 at copied-asset counts 0, 1 and 2 (the last with and
without compiled names). -/
theorem assetsLog_cases_witness :
    assetsLog [] ["x.js"] = "" ∧
    assetsLog ["img.png"] [] = "copied img.png" ∧
    assetsLog ["a.png", "b.png"] ["x.js"] = "copied 2" ∧
    assetsLog ["a.png", "b.png"] [] = "copied 2 files" :=
  ⟨(assetsLog_cases [] ["x.js"]).1 rfl,
   (assetsLog_cases ["img.png"] []).2.1 "img.png" rfl,
   ((assetsLog_cases ["a.png", "b.png"] ["x.js"]).2.2 (by decide)).1
     (by decide),
   ((assetsLog_cases ["a.png", "b.png"] []).2.2 (by decide)).2 rfl⟩

/-- Closed form of the inner fold over one bundle's source files: the
changed flag is the initial flag, or some changed source, or (when the list
is nonempty) membership among the disposed generated files; the local count
grows by the number of changed sources (with multiplicity); the compiled
names absorb the changed sources' basenames first-occurrence style. -/
theorem foldl_stepSource_eq (startTime : Int) (dgen : List GeneratedFile)
    (gf : GeneratedFile) :
    ∀ (sfs : List SourceFile) (b : Bool) (k : Nat) (c : List String),
    sfs.foldl (stepSource startTime dgen gf) (b, k, c) =
      ((b || sfs.any (chP startTime)) || (!sfs.isEmpty && dgen.contains gf),
       k + (sfs.filter (chP startTime)).length,
       ((sfs.filter (chP startTime)).map fun sf => basename sf.path).foldl
         pushNew c) := by
  intro sfs
  induction sfs with
  | nil =>
    intro b k c
    simp
  | cons sf rest ih =>
    intro b k c
    by_cases hch : sf.compilationTime ≥ startTime
    · have hchb : chP startTime sf = true := by simp [chP, hch]
      have hstep : stepSource startTime dgen gf (b, k, c) sf =
          (true, k + 1, pushNew c (basename sf.path)) := by
        simp [stepSource, pushNew, hch]
      rw [List.foldl_cons, hstep, ih]
      simp [hchb]
      omega
    · have hchb : chP startTime sf = false := by simp [chP, hch]
      have hstep : stepSource startTime dgen gf (b, k, c) sf =
          (b || dgen.contains gf, k, c) := by
        simp only [stepSource, if_neg hch]
        cases b <;> cases hm : dgen.contains gf <;> simp
      rw [List.foldl_cons, hstep, ih]
      simp only [List.any_cons, List.filter_cons, List.isEmpty_cons, hchb,
        Bool.false_or, Bool.not_false, Bool.true_and, Prod.mk.injEq]
      refine ⟨?_, rfl, rfl⟩
      cases b <;> cases hm : dgen.contains gf <;>
        cases ha : rest.any (chP startTime) <;>
        cases he : rest.isEmpty <;> simp

/-- The compiled-names component of one outer step is the compiled-names
component of its inner fold, whether or not the bundle was flagged. -/
theorem stepGenerated_snd_fst (startTime : Int) (dgen : List GeneratedFile)
    (a : List String × List String × Nat) (gf : GeneratedFile) :
    (stepGenerated startTime dgen a gf).2.1 =
      (gf.sourceFiles.foldl (stepSource startTime dgen gf)
        (false, 0, a.2.1)).2.2 := by
  unfold stepGenerated
  cases h : (gf.sourceFiles.foldl (stepSource startTime dgen gf)
    (false, 0, a.2.1)).1 <;> simp [h]

/-- The global compiled-names component of the outer fold is the repeated
`pushNew` of the changed sources' basenames in traversal order, regardless
of the starting generated/cached components. -/
theorem computeLog_compiled (startTime : Int) (dgen : List GeneratedFile) :
    ∀ (gfs : List GeneratedFile) (g c : List String) (n : Nat),
    (gfs.foldl (stepGenerated startTime dgen) (g, c, n)).2.1 =
      (changedNames startTime gfs).foldl pushNew c := by
  intro gfs
  induction gfs with
  | nil =>
    intro g c n
    simp [changedNames]
  | cons gf rest ih =>
    intro g c n
    have hc1 : (stepGenerated startTime dgen (g, c, n) gf).2.1 =
        ((gf.sourceFiles.filter (chP startTime)).map fun sf =>
          basename sf.path).foldl pushNew c := by
      rw [stepGenerated_snd_fst, foldl_stepSource_eq]
    have hnames : changedNames startTime (gf :: rest) =
        ((gf.sourceFiles.filter (chP startTime)).map fun sf =>
          basename sf.path) ++ changedNames startTime rest := by
      simp [changedNames]
    rw [List.foldl_cons, hnames, List.foldl_append, ← hc1]
    exact ih _ _ _

/-- Repeated `pushNew` preserves the no-duplicates invariant. -/
theorem foldl_pushNew_nodup :
    ∀ (l acc : List String), acc.Nodup → (l.foldl pushNew acc).Nodup := by
  intro l
  induction l with
  | nil =>
    intro acc h
    exact h
  | cons x rest ih =>
    intro acc h
    refine ih _ ?_
    by_cases hc : x ∈ acc
    · simpa [pushNew, hc] using h
    · simp [pushNew, hc, List.nodup_append, List.disjoint_singleton, h]

/-- C7: the compiled-names list of a pass is the first-occurrence
de-duplication of the changed sources' basenames in traversal order (hence
each basename occurs at most once, even when one source feeds several
bundles), while a bundle's locally-compiled count still counts every changed
source with multiplicity. -/
theorem compiled_names_dedup (startTime : Int) (dgen : List GeneratedFile)
    (gfs : List GeneratedFile) :
    (computeLog startTime dgen gfs).2.1 =
      dedupFirst (changedNames startTime gfs) ∧
    ((computeLog startTime dgen gfs).2.1).Nodup ∧
    ∀ (gf : GeneratedFile) (b : Bool) (k : Nat) (c : List String),
      (gf.sourceFiles.foldl (stepSource startTime dgen gf) (b, k, c)).2.1 =
        k + (gf.sourceFiles.filter (chP startTime)).length := by
  have h1 : (computeLog startTime dgen gfs).2.1 =
      dedupFirst (changedNames startTime gfs) :=
    computeLog_compiled startTime dgen gfs [] [] 0
  refine ⟨h1, ?_, ?_⟩
  · rw [h1]
    exact foldl_pushNew_nodup _ [] List.nodup_nil
  · intro gf b k c
    rw [foldl_stepSource_eq]

/-- C2 (amended): a generated file with at least one source file that is
listed among the disposed generated files is flagged changed even when none
of its sources changed: its basename is appended to the generated names and
its full source count is added to the cached accumulator (while the compiled
names are untouched). -/
theorem stepGenerated_disposed_unchangedSources (startTime : Int)
    (dgen : List GeneratedFile) (gf : GeneratedFile) (g c : List String)
    (n : Nat) (hmem : dgen.contains gf = true) (hne : gf.sourceFiles ≠ [])
    (hunch : ∀ sf ∈ gf.sourceFiles, sf.compilationTime < startTime) :
    stepGenerated startTime dgen (g, c, n) gf =
      (g ++ [basename gf.path], c, n + gf.sourceFiles.length) := by
  have hany : gf.sourceFiles.any (chP startTime) = false := by
    simp only [List.any_eq_false, chP, decide_eq_true_eq]
    intro sf hsf
    exact not_le.mpr (hunch sf hsf)
  have hfil : gf.sourceFiles.filter (chP startTime) = [] := by
    simp only [List.filter_eq_nil_iff, chP, decide_eq_true_eq]
    intro sf hsf
    exact not_le.mpr (hunch sf hsf)
  have hemp : gf.sourceFiles.isEmpty = false := by
    cases hsf : gf.sourceFiles with
    | nil => exact absurd hsf hne
    | cons a t => rfl
  unfold stepGenerated
  rw [foldl_stepSource_eq, hany, hfil, hemp, hmem]
  simp

/-- Witness for C2 (amended): a two-source bundle with no changed sources,
itself disposed, is flagged: its basename is recorded and both its sources
count as cached. -/
theorem stepGenerated_disposed_witness :
    stepGenerated 0
      [(⟨"public/vendor.js", [⟨"v1.js", -1⟩, ⟨"v2.js", -1⟩]⟩ : GeneratedFile)]
      ([], [], 0) ⟨"public/vendor.js", [⟨"v1.js", -1⟩, ⟨"v2.js", -1⟩]⟩ =
      (["vendor.js"], [], 2) :=
  stepGenerated_disposed_unchangedSources 0
    [⟨"public/vendor.js", [⟨"v1.js", -1⟩, ⟨"v2.js", -1⟩]⟩]
    ⟨"public/vendor.js", [⟨"v1.js", -1⟩, ⟨"v2.js", -1⟩]⟩ [] [] 0 (by decide)
    (by decide) (by decide)

/-- Counterexample to C2 as stated: a generated file with an empty source
list, although present in `disposedFiles.generated` (and with all of its
source files vacuously unchanged), is not flagged — the pass records no
generated name and no cached count for it. -/
theorem disposed_empty_sources_counterexample :
    ([(⟨"public/app.js", []⟩ : GeneratedFile)]).contains
      (⟨"public/app.js", []⟩ : GeneratedFile) = true ∧
    (⟨"public/app.js", []⟩ : GeneratedFile).sourceFiles = [] ∧
    computeLog 0 [⟨"public/app.js", []⟩] [⟨"public/app.js", []⟩] =
      ([], [], 0) := by decide

/-- C5: for all inputs the function is total (the embedding is a total Lean
function — the source has no throwing operation on well-formed inputs) and
the result is a non-empty string ending in `" in <number> ms"` or
`" in <number>.<digit> sec"`. -/
theorem generateCompilationLog_shape (now startTime : Int)
    (copiedAssets : List Asset) (generatedFiles : List GeneratedFile)
    (disposedFiles : DisposedFiles) :
    generateCompilationLog now startTime copiedAssets generatedFiles
        disposedFiles ≠ "" ∧
    ((∃ pre : String, ∃ ms : Int,
        generateCompilationLog now startTime copiedAssets generatedFiles
          disposedFiles = pre ++ " in " ++ toString ms ++ " ms") ∨
     (∃ pre : String, ∃ s d : Int, 0 ≤ d ∧ d < 10 ∧
        generateCompilationLog now startTime copiedAssets generatedFiles
          disposedFiles =
          pre ++ " in " ++ toString s ++ "." ++ toString d ++ " sec")) := by
  constructor
  · intro hcontra
    rw [generateCompilationLog_eq] at hcontra
    have hlen := congrArg String.length hcontra
    rw [String.length_append, String.length_append] at hlen
    have h4 : (" in ").length = 4 := rfl
    have h0 : ("" : String).length = 0 := rfl
    rw [h4, h0] at hlen
    omega
  · by_cases hd : now - startTime > 1000
    · right
      refine ⟨if mainText startTime copiedAssets generatedFiles disposedFiles
          = "" then "compiled"
          else mainText startTime copiedAssets generatedFiles disposedFiles,
        ((now - startTime + 50) / 100) / 10, ((now - startTime + 50) / 100) % 10,
        Int.emod_nonneg _ (by norm_num), Int.emod_lt_of_pos _ (by norm_num),
        ?_⟩
      rw [generateCompilationLog_eq]
      simp only [diffText, secondsText, if_pos hd, String.append_assoc]
    · left
      refine ⟨if mainText startTime copiedAssets generatedFiles disposedFiles
          = "" then "compiled"
          else mainText startTime copiedAssets generatedFiles disposedFiles,
        now - startTime, ?_⟩
      rw [generateCompilationLog_eq]
      simp only [diffText, if_neg hd, String.append_assoc]
